import Mathlib

/-!
Shallow embedding of the CoralScape image-overlay application
(single source file `src/App.tsx`).

Modelling conventions:

* JavaScript numbers are modelled as exact rationals (`ℚ`); the
  arithmetic in the program (scaling, placement, watermark geometry) is
  stated by the specification in exact arithmetic.
* A decoded raster image is modelled by its natural pixel dimensions
  (`Raster`).  Image decoding (`new Image()` + `onload`/`onerror`) is
  modelled by a decode oracle `String → Option Raster` mapping a source
  URL / data-URL to its decoded raster, `none` meaning a decode failure.
* A 2D canvas is modelled as its dimensions together with the ordered
  list of `drawImage` commands issued against it (with the destination
  rectangle and the value of `globalAlpha` at the time of the call).
  `canvas.toDataURL()` is modelled by an injective serialization of the
  canvas value to a string.
* Toast notifications are collected in a list, in emission order.
* The `canvas.getContext` null-check branches of the program (which can
  only fire when the 2D context is unavailable) are not modelled: the
  context is assumed available, as in every environment the app targets.
-/

namespace CoralScape

/-- A decoded raster image: its natural pixel dimensions
(`img.width` / `img.height` after a successful decode). -/
structure Raster where
  width : ℕ
  height : ℕ
  deriving Repr, DecidableEq

/-- A decode oracle: what the environment's image decoder yields for a
given source URL / data-URL (`none` models `onerror`). -/
def DecodeOracle : Type := String → Option Raster

/-- One `ctx.drawImage(img, x, y, w, h)` call recorded against a canvas:
the source reference, the destination rectangle, and the value of
`ctx.globalAlpha` when the call was made. -/
structure DrawCmd where
  src : String
  x : ℚ
  y : ℚ
  w : ℚ
  h : ℚ
  alpha : ℚ
  deriving Repr, DecidableEq

/-- An off-screen canvas: its pixel dimensions and the ordered list of
draw commands issued against it. -/
structure Canvas where
  width : ℕ
  height : ℕ
  ops : List DrawCmd
  deriving Repr, DecidableEq

/-- Model of `canvas.toDataURL()`: an injective serialization of the
canvas contents to a string. -/
def Canvas.toDataURL (c : Canvas) : String := reprStr c

/-- Catalog record parsed from one Google-Sheets CSV row
(interface `ImageData` in the source). -/
structure ImageData where
  name : String
  imageUrl : String
  thumbnailImageUrl : String
  fullSizeWidth : Int
  fullSizeHeight : Int
  deriving Repr, DecidableEq

/-- An overlay placed on the tank canvas
(interface `OverlayImage` in the source). -/
structure OverlayImage where
  id : String
  src : String
  x : ℚ
  y : ℚ
  width : ℚ
  height : ℚ
  originalWidth : Int
  originalHeight : Int
  deriving Repr, DecidableEq

/-- The React state of the `App` component that the claims are about. -/
structure AppState where
  imageData : List ImageData
  baseImage : Option String
  overlayImages : List OverlayImage
  selectedOverlay : Option String
  deriving Repr, DecidableEq

/-- A transient toast notification. -/
inductive Toast where
  | success (msg : String)
  | error (msg : String)
  deriving Repr, DecidableEq

/-- The constant watermark asset URL used by `addWatermark`. -/
def watermarkUrl : String := "https://i.ibb.co/bgvtdQjn/watermark.png"

/-- Model of `addWatermark(imageSrc)`.

`decode` is the environment's decoder for `imageSrc`; `wmLoad` is the
result of loading the watermark asset (`none` models the watermark's
`onerror` path).  Returns the composed canvas on success (the caller
serializes it with `Canvas.toDataURL`), or a decode error when the
source image itself fails to decode. -/
def addWatermark (decode : DecodeOracle) (wmLoad : Option Raster)
    (imageSrc : String) : Except String Canvas :=
  match decode imageSrc with
  | none => .error "Could not load image"
  | some img =>
    -- canvas.width/height := img.width/height; draw the original at (0,0)
    let base : Canvas :=
      ⟨img.width, img.height,
        [⟨imageSrc, 0, 0, (img.width : ℚ), (img.height : ℚ), 1⟩]⟩
    match wmLoad with
    | none =>
      -- watermark failed to load: resolve with the original image only
      .ok base
    | some wm =>
      let watermarkWidth : ℚ := (img.width : ℚ) * (2 / 10)
      let watermarkHeight : ℚ :=
        ((wm.height : ℚ) / (wm.width : ℚ)) * watermarkWidth
      let x : ℚ := (img.width : ℚ) - watermarkWidth - 10
      let y : ℚ := (img.height : ℚ) - watermarkHeight - 10
      .ok ⟨img.width, img.height,
        base.ops ++ [⟨watermarkUrl, x, y, watermarkWidth, watermarkHeight, 8 / 10⟩]⟩

/-- Model of `handleImageUpload` after the file has been read into
`original` (the data-URL produced by the `FileReader`): stamp the
watermark, set the base image, and clear the overlays; on a stamping
error, fall back to the original image and still clear the overlays.
Neither branch emits a toast. -/
def handleImageUpload (decode : DecodeOracle) (wmLoad : Option Raster)
    (original : String) (st : AppState) : AppState × List Toast :=
  match addWatermark decode wmLoad original with
  | .ok c =>
    ({ st with baseImage := some c.toDataURL, overlayImages := [] }, [])
  | .error _ =>
    ({ st with baseImage := some original, overlayImages := [] }, [])

/-- Model of JavaScript `Number.prototype.toString()` on a nonnegative
integer (the `Date.now()` timestamp): its decimal representation. -/
def jsNumToString (n : ℕ) : String :=
  if n = 0 then "0"
  else String.mk (((Nat.digits 10 n).reverse).map Nat.digitChar)

/-- Reads a decimal digit string back to the number it denotes; a left
inverse of `jsNumToString`, used to prove that distinct timestamps give
distinct ids. -/
def readNatDecimal (s : String) : ℕ :=
  s.data.foldl (fun a c => a * 10 + (c.toNat - 48)) 0

/-- The overlay record built by `handleDrop`: `now` is the `Date.now()`
timestamp, `rec` the dragged catalog record (already
JSON-round-tripped), and the cursor is at `(clientX, clientY)` with the
tank rectangle's origin at `(rectLeft, rectTop)`. -/
def newOverlayOf (now : ℕ) (rec : ImageData)
    (clientX clientY rectLeft rectTop : ℚ) : OverlayImage :=
  let x : ℚ := clientX - rectLeft
  let y : ℚ := clientY - rectTop
  { id := jsNumToString now
    src := rec.imageUrl
    x := max 0 (x - 50)
    y := max 0 (y - 50)
    width := min ((rec.fullSizeWidth : ℚ) * (3 / 10)) 150
    height := min ((rec.fullSizeHeight : ℚ) * (3 / 10)) 150
    originalWidth := rec.fullSizeWidth
    originalHeight := rec.fullSizeHeight }

/-- Model of `handleDrop`: append the new overlay and toast success. -/
def handleDrop (now : ℕ) (rec : ImageData)
    (clientX clientY rectLeft rectTop : ℚ) (st : AppState) :
    AppState × List Toast :=
  let newOverlay := newOverlayOf now rec clientX clientY rectLeft rectTop
  ({ st with overlayImages := st.overlayImages ++ [newOverlay] },
   [.success ("Added " ++ rec.name ++ " to tank")])

/-- Draws each overlay in order onto the export canvas: decode its
source raster, then issue the `drawImage` call at the display rectangle
scaled by `(scaleX, scaleY)`.  The first decode failure aborts. -/
def drawOverlays (decode : DecodeOracle) (scaleX scaleY : ℚ) :
    List OverlayImage → Except String (List DrawCmd)
  | [] => .ok []
  | o :: os =>
    match decode o.src with
    | none => .error "overlay decode failed"
    | some _ =>
      match drawOverlays decode scaleX scaleY os with
      | .error e => .error e
      | .ok cmds =>
        .ok (⟨o.src, o.x * scaleX, o.y * scaleY,
              o.width * scaleX, o.height * scaleY, 1⟩ :: cmds)

/-- Model of `exportImage`: `frameW`/`frameH` are the display frame's
rendered dimensions (`canvasRef.current.offsetWidth/offsetHeight`).
Returns the (unchanged) state, the toasts emitted, and the composed
canvas handed to the download link (`none` when no file is produced). -/
def exportImage (decode : DecodeOracle) (frameW frameH : ℚ)
    (st : AppState) : AppState × List Toast × Option Canvas :=
  match st.baseImage with
  | none => (st, [.error "Please upload a base image first"], none)
  | some base =>
    match decode base with
    | none => (st, [.error "Failed to export tank"], none)
    | some baseImg =>
      let scaleX : ℚ := (baseImg.width : ℚ) / frameW
      let scaleY : ℚ := (baseImg.height : ℚ) / frameH
      match drawOverlays decode scaleX scaleY st.overlayImages with
      | .error _ => (st, [.error "Failed to export tank"], none)
      | .ok cmds =>
        (st, [.success "Tank exported successfully!"],
         some ⟨baseImg.width, baseImg.height,
           ⟨base, 0, 0, (baseImg.width : ℚ), (baseImg.height : ℚ), 1⟩ :: cmds⟩)

/-- Model of JavaScript `String.prototype.trim()`: strip leading and
trailing whitespace (structural recursion over the character list, so
that it computes in the kernel). -/
def jsTrim (s : String) : String :=
  ⟨((s.data.dropWhile Char.isWhitespace).reverse.dropWhile
      Char.isWhitespace).reverse⟩

/-- Splits a character list on a separator; the result always has at
least one (possibly empty) group, as JavaScript `split` does. -/
def splitChar (sep : Char) : List Char → List (List Char)
  | [] => [[]]
  | c :: cs =>
    if c = sep then [] :: splitChar sep cs
    else
      match splitChar sep cs with
      | [] => [[c]]
      | g :: gs => (c :: g) :: gs

/-- Model of JavaScript `String.prototype.split(sep)` for a one-character
separator. -/
def jsSplitOn (sep : Char) (s : String) : List String :=
  (splitChar sep s.data).map (fun cs => (⟨cs⟩ : String))

/-- Model of one field's normalization in the CSV parser:
`col.replace(/"/g, '').trim()` — remove every quote character, then
strip surrounding whitespace. -/
def stripField (s : String) : String :=
  jsTrim (String.mk (s.data.filter (fun c => c ≠ '"')))

/-- Value of the maximal leading decimal-digit run of `cs`
(`none` when it is empty). -/
def leadingDigitsVal (cs : List Char) : Option ℕ :=
  let ds := cs.takeWhile Char.isDigit
  if ds.isEmpty then none
  else some (ds.foldl (fun a c => a * 10 + (c.toNat - 48)) 0)

/-- Model of JavaScript `parseInt(s)` on the (already trimmed,
quote-stripped) CSV fields this program feeds it: skip leading
whitespace, read an optional sign and then the maximal run of decimal
digits; `none` models `NaN` (no digits). -/
def parseIntJS (s : String) : Option Int :=
  match (jsTrim s).data with
  | '-' :: rest => (leadingDigitsVal rest).map (fun n => -(n : Int))
  | '+' :: rest => (leadingDigitsVal rest).map (fun n => (n : Int))
  | cs => (leadingDigitsVal cs).map (fun n => (n : Int))

/-- JavaScript string short-circuit `s || d`: the empty string is
falsy. -/
def jsOrS (s d : String) : String := if s = "" then d else s

/-- JavaScript numeric short-circuit `parseInt(s) || d`: both `NaN` and
`0` are falsy. -/
def jsOrI (o : Option Int) (d : Int) : Int :=
  match o with
  | none => d
  | some n => if n = 0 then d else n

/-- The normalized fields of one raw CSV line: trim the line, split it
on commas, and normalize each field with `stripField`. -/
def rowFields (raw : String) : List String :=
  (jsSplitOn ',' (jsTrim raw)).map stripField

/-- Model of one iteration of the CSV row loop of
`fetchGoogleSheetsData` at loop index `i` (the index of the raw line in
the split of the response on newlines): trim the line, skip it when
blank, split on commas, normalize each field, and accept it when it has
at least 6 fields. -/
def parseLine (i : ℕ) (raw : String) : Option ImageData :=
  if jsTrim raw = "" then none
  else
    let columns := rowFields raw
    if 6 ≤ columns.length then
      some
        { name := jsOrS (columns.getD 1 "") ("Image " ++ toString i)
          imageUrl := jsOrS (columns.getD 2 "") ""
          thumbnailImageUrl :=
            jsOrS (columns.getD 3 "") (jsOrS (columns.getD 2 "") "")
          fullSizeWidth := jsOrI (parseIntJS (columns.getD 4 "")) 300
          fullSizeHeight := jsOrI (parseIntJS (columns.getD 5 "")) 300 }
    else none

/-- The row loop of `fetchGoogleSheetsData`, started at loop index `i`
over the remaining lines; rejected rows are skipped, accepted rows are
pushed in order. -/
def parseSheetRows : ℕ → List String → List ImageData
  | _, [] => []
  | i, l :: ls =>
    match parseLine i l with
    | some d => d :: parseSheetRows (i + 1) ls
    | none => parseSheetRows (i + 1) ls

/-- Model of the parsing phase of `fetchGoogleSheetsData`: split the
response text on newlines, skip the header row (index 0), and run the
row loop from index 1. -/
def parseSheet (csvText : String) : List ImageData :=
  parseSheetRows 1 ((jsSplitOn '\n' csvText).drop 1)

/-- Iterated drops: perform `handleDrop` for each tuple
`(now, rec, clientX, clientY, rectLeft, rectTop)` in order. -/
def runDrops (st : AppState) :
    List (ℕ × ImageData × ℚ × ℚ × ℚ × ℚ) → AppState
  | [] => st
  | (now, rec, cx, cy, rl, rt) :: ds =>
    runDrops (handleDrop now rec cx cy rl rt st).1 ds

/-! Concrete example inputs, used to instantiate the theorems below. -/

/-- An example decode oracle: a base image of 800×600 and a coral
overlay source of 1000×500. -/
def exDecode : DecodeOracle := fun s =>
  if s = "base.png" then some ⟨800, 600⟩
  else if s = "coral.png" then some ⟨1000, 500⟩
  else none

/-- An overlay placed at display rectangle (40, 40, 60, 60). -/
def exOverlay : OverlayImage := ⟨"1", "coral.png", 40, 40, 60, 60, 1000, 500⟩

/-- A state with the 800×600 base image and one overlay. -/
def exState : AppState := ⟨[], some "base.png", [exOverlay], none⟩

/-- An overlay whose source URL does not decode under `exDecode`. -/
def exBadOverlay : OverlayImage := ⟨"2", "missing.png", 10, 10, 20, 20, 50, 50⟩

/-- A state with the 800×600 base image and a second overlay whose
source fails to decode. -/
def exBadState : AppState := ⟨[], some "base.png", [exOverlay, exBadOverlay], none⟩

/-- An example catalog record of native size 1000×500. -/
def exRecord : ImageData := ⟨"Zoa", "coral.png", "coral-thumb.png", 1000, 500⟩

/-- A decode oracle under which no image decodes. -/
def noDecode : DecodeOracle := fun _ => none

/-! Helper lemmas. -/

/-- When every overlay source decodes, `drawOverlays` succeeds and
issues one scaled draw command per overlay, in order. -/
theorem drawOverlays_ok (decode : DecodeOracle) (sX sY : ℚ)
    (os : List OverlayImage) (h : ∀ o ∈ os, (decode o.src).isSome) :
    drawOverlays decode sX sY os =
      .ok (os.map fun o =>
        ⟨o.src, o.x * sX, o.y * sY, o.width * sX, o.height * sY, 1⟩) := by
  induction os with
  | nil => rfl
  | cons o os ih =>
    obtain ⟨r, hr⟩ :=
      Option.isSome_iff_exists.mp (h o (List.mem_cons_self o os))
    have ht := ih (fun o' ho' => h o' (List.mem_cons_of_mem _ ho'))
    simp [drawOverlays, hr, ht]

/-- When some overlay source fails to decode, `drawOverlays` aborts
with an error. -/
theorem drawOverlays_err (decode : DecodeOracle) (sX sY : ℚ)
    (os : List OverlayImage) (h : ∃ o ∈ os, decode o.src = none) :
    ∃ e, drawOverlays decode sX sY os = .error e := by
  induction os with
  | nil => simp at h
  | cons o os ih =>
    obtain ⟨o', ho', hnone⟩ := h
    rcases List.mem_cons.mp ho' with h1 | h1
    · subst h1
      exact ⟨"overlay decode failed", by simp [drawOverlays, hnone]⟩
    · cases hd : decode o.src with
      | none => exact ⟨"overlay decode failed", by simp [drawOverlays, hd]⟩
      | some r =>
        obtain ⟨e, he⟩ := ih ⟨o', h1, hnone⟩
        exact ⟨e, by simp [drawOverlays, hd, he]⟩

/-- Successful-export characterization: with a decodable base and all
overlay sources decodable, `exportImage` leaves the state unchanged,
toasts success, and produces the canvas at the base's native
dimensions, with the base drawn first and each overlay's display
rectangle scaled by the native-over-frame factors. -/
theorem exportImage_ok (decode : DecodeOracle) (fW fH : ℚ)
    (st : AppState) (base : String) (r : Raster)
    (hb : st.baseImage = some base) (hd : decode base = some r)
    (hov : ∀ o ∈ st.overlayImages, (decode o.src).isSome) :
    exportImage decode fW fH st =
      (st, [.success "Tank exported successfully!"],
        some ⟨r.width, r.height,
          ⟨base, 0, 0, (r.width : ℚ), (r.height : ℚ), 1⟩ ::
            st.overlayImages.map (fun o =>
              ⟨o.src, o.x * ((r.width : ℚ) / fW),
               o.y * ((r.height : ℚ) / fH),
               o.width * ((r.width : ℚ) / fW),
               o.height * ((r.height : ℚ) / fH), 1⟩)⟩) := by
  simp [exportImage, hb, hd,
    drawOverlays_ok decode ((r.width : ℚ) / fW) ((r.height : ℚ) / fH)
      st.overlayImages hov]

/-- C1: for every overlay placement in the composition, the export
operation draws that overlay at its display rectangle multiplied
componentwise by the scale factors
(native base width / display frame width,
 native base height / display frame height): the draw command at
position `k + 1` of the output canvas (position 0 is the base) places
the `k`-th overlay at exactly that scaled rectangle. -/
theorem export_overlay_rect_scaled (decode : DecodeOracle) (fW fH : ℚ)
    (st : AppState) (base : String) (r : Raster)
    (hb : st.baseImage = some base) (hd : decode base = some r)
    (hov : ∀ o ∈ st.overlayImages, (decode o.src).isSome)
    (k : ℕ) (hk : k < st.overlayImages.length) :
    ∃ c, (exportImage decode fW fH st).2.2 = some c ∧
      c.ops[k + 1]? = some
        ⟨st.overlayImages[k].src,
         st.overlayImages[k].x * ((r.width : ℚ) / fW),
         st.overlayImages[k].y * ((r.height : ℚ) / fH),
         st.overlayImages[k].width * ((r.width : ℚ) / fW),
         st.overlayImages[k].height * ((r.height : ℚ) / fH), 1⟩ := by
  refine ⟨_, by rw [exportImage_ok decode fW fH st base r hb hd hov], ?_⟩
  simp [hk]

/-- C1 witness: with an 800×600 base rendered in a 400×300 display
frame, the overlay placed at display rectangle (40, 40, 60, 60) is
drawn at native rectangle (80, 80, 120, 120). -/
theorem export_overlay_rect_scaled_witness :
    ∃ c, (exportImage exDecode 400 300 exState).2.2 = some c ∧
      c.ops[1]? = some ⟨"coral.png", 80, 80, 120, 120, 1⟩ := by
  obtain ⟨c, hc, hop⟩ :=
    export_overlay_rect_scaled exDecode 400 300 exState "base.png"
      ⟨800, 600⟩ rfl (by decide) (by decide) 0 (by decide)
  refine ⟨c, hc, ?_⟩
  simp only [Nat.zero_add] at hop
  rw [hop]
  norm_num [exState, exOverlay]

/-- C2: for every base image and overlay list, export allocates the
output canvas at exactly the base's native pixel dimensions
(independently of the display frame's rendered size `fW × fH`), draws
the base first at (0,0) unscaled, and then draws the overlays in
insertion order. -/
theorem export_native_resolution (decode : DecodeOracle) (fW fH : ℚ)
    (st : AppState) (base : String) (r : Raster)
    (hb : st.baseImage = some base) (hd : decode base = some r)
    (hov : ∀ o ∈ st.overlayImages, (decode o.src).isSome) :
    ∃ c, (exportImage decode fW fH st).2.2 = some c ∧
      c.width = r.width ∧ c.height = r.height ∧
      c.ops.head? = some ⟨base, 0, 0, (r.width : ℚ), (r.height : ℚ), 1⟩ ∧
      c.ops.tail = st.overlayImages.map (fun o =>
        ⟨o.src, o.x * ((r.width : ℚ) / fW), o.y * ((r.height : ℚ) / fH),
         o.width * ((r.width : ℚ) / fW),
         o.height * ((r.height : ℚ) / fH), 1⟩) := by
  refine ⟨_, by rw [exportImage_ok decode fW fH st base r hb hd hov], ?_⟩
  exact ⟨rfl, rfl, rfl, rfl⟩

/-- C2 witness: exporting the example state in a 400×300 frame yields
an 800×600 canvas with the base drawn first and the overlay after
it. -/
theorem export_native_resolution_witness :
    ∃ c, (exportImage exDecode 400 300 exState).2.2 = some c ∧
      c.width = 800 ∧ c.height = 600 ∧
      c.ops.head? = some ⟨"base.png", 0, 0, 800, 600, 1⟩ ∧
      c.ops.tail = [⟨"coral.png", 80, 80, 120, 120, 1⟩] := by
  obtain ⟨c, hc, hw, hh, hhd, htl⟩ :=
    export_native_resolution exDecode 400 300 exState "base.png"
      ⟨800, 600⟩ rfl (by decide) (by decide)
  refine ⟨c, hc, hw, hh, ?_, ?_⟩
  · rw [hhd]; norm_num
  · rw [htl]; norm_num [exState, exOverlay]

/-- C3: if any overlay's source fails to decode during export, the
export operation produces no output canvas, emits exactly one error
toast, and leaves the application state unchanged. -/
theorem export_aborts_on_overlay_decode_failure (decode : DecodeOracle)
    (fW fH : ℚ) (st : AppState) (base : String) (r : Raster)
    (hb : st.baseImage = some base) (hd : decode base = some r)
    (hov : ∃ o ∈ st.overlayImages, decode o.src = none) :
    exportImage decode fW fH st =
      (st, [.error "Failed to export tank"], none) := by
  obtain ⟨e, he⟩ :=
    drawOverlays_err decode ((r.width : ℚ) / fW) ((r.height : ℚ) / fH)
      st.overlayImages hov
  simp [exportImage, hb, hd, he]

/-- C3 witness: with one decodable overlay and one whose source is
missing, export yields no canvas, one error toast, and the unchanged
state. -/
theorem export_aborts_on_overlay_decode_failure_witness :
    exportImage exDecode 400 300 exBadState =
      (exBadState, [.error "Failed to export tank"], none) :=
  export_aborts_on_overlay_decode_failure exDecode 400 300 exBadState
    "base.png" ⟨800, 600⟩ rfl (by decide) ⟨exBadOverlay, by decide, by decide⟩

/-- C4: the overlay created on drop sits at
`(max 0 (cx − 50), max 0 (cy − 50))` where `(cx, cy)` is the cursor
position in display coordinates (so its coordinates are never
negative), and has size `min(nativeWidth·0.3, 150)` by
`min(nativeHeight·0.3, 150)`, computed independently per axis; in
particular a 1000×500 record yields a 150×150 initial placement. -/
theorem drop_initial_placement (now : ℕ) (rec : ImageData)
    (clientX clientY rectLeft rectTop : ℚ) (st : AppState) :
    (∃ o : OverlayImage,
      (handleDrop now rec clientX clientY rectLeft rectTop st).1.overlayImages
        = st.overlayImages ++ [o] ∧
      o.x = max 0 ((clientX - rectLeft) - 50) ∧
      o.y = max 0 ((clientY - rectTop) - 50) ∧
      0 ≤ o.x ∧ 0 ≤ o.y ∧
      o.width = min ((rec.fullSizeWidth : ℚ) * (3 / 10)) 150 ∧
      o.height = min ((rec.fullSizeHeight : ℚ) * (3 / 10)) 150) ∧
    (rec.fullSizeWidth = 1000 → rec.fullSizeHeight = 500 →
      (newOverlayOf now rec clientX clientY rectLeft rectTop).width = 150 ∧
      (newOverlayOf now rec clientX clientY rectLeft rectTop).height = 150) := by
  constructor
  · exact ⟨newOverlayOf now rec clientX clientY rectLeft rectTop,
      rfl, rfl, rfl, le_max_left 0 _, le_max_left 0 _, rfl, rfl⟩
  · intro hw hh
    constructor
    · show min ((rec.fullSizeWidth : ℚ) * (3 / 10)) 150 = 150
      rw [hw]; norm_num
    · show min ((rec.fullSizeHeight : ℚ) * (3 / 10)) 150 = 150
      rw [hh]; norm_num

/-- C4 witness: dropping the 1000×500 example record at cursor
(60, 60) over a frame at origin (0, 0) appends one overlay at
position (10, 10) of size 150×150. -/
theorem drop_initial_placement_witness :
    ∃ o : OverlayImage,
      (handleDrop 7 exRecord 60 60 0 0
        (⟨[], some "base.png", [], none⟩ : AppState)).1.overlayImages = [o] ∧
      o.x = 10 ∧ o.y = 10 ∧ o.width = 150 ∧ o.height = 150 := by
  obtain ⟨⟨o, happ, hx, hy, _, _, hw, hh⟩, hex⟩ :=
    drop_initial_placement 7 exRecord 60 60 0 0
      (⟨[], some "base.png", [], none⟩ : AppState)
  refine ⟨o, by simpa using happ, ?_, ?_, ?_, ?_⟩
  · rw [hx]; norm_num
  · rw [hy]; norm_num
  · rw [hw]; norm_num [exRecord]
  · rw [hh]; norm_num [exRecord]

/-- C5: after the base-image upload operation completes, the overlay
list is empty — for every prior state and whether or not watermark
stamping succeeded. -/
theorem upload_clears_overlays (decode : DecodeOracle)
    (wmLoad : Option Raster) (original : String) (st : AppState) :
    (handleImageUpload decode wmLoad original st).1.overlayImages = [] := by
  unfold handleImageUpload
  cases addWatermark decode wmLoad original <;> rfl

/-- C6: for every source that decodes and every watermark that loads,
the stamper succeeds with a canvas of the source's native dimensions,
drawing the source first and then the watermark at 20% of the source
width, height scaled by the watermark's aspect ratio, 10px from the
right and bottom edges, at 80% opacity. -/
theorem watermark_geometry (decode : DecodeOracle) (src : String)
    (img wm : Raster) (hd : decode src = some img) :
    (addWatermark decode (some wm) src =
      .ok ⟨img.width, img.height,
        [⟨src, 0, 0, (img.width : ℚ), (img.height : ℚ), 1⟩,
         ⟨watermarkUrl,
          (img.width : ℚ) - (img.width : ℚ) * (2 / 10) - 10,
          (img.height : ℚ) -
            ((wm.height : ℚ) / (wm.width : ℚ)) * ((img.width : ℚ) * (2 / 10)) - 10,
          (img.width : ℚ) * (2 / 10),
          ((wm.height : ℚ) / (wm.width : ℚ)) * ((img.width : ℚ) * (2 / 10)),
          8 / 10⟩]⟩) ∧
    (wm.width ≠ 0 →
      ((wm.height : ℚ) / (wm.width : ℚ)) * ((img.width : ℚ) * (2 / 10)) *
          (wm.width : ℚ)
        = (wm.height : ℚ) * ((img.width : ℚ) * (2 / 10))) := by
  constructor
  · simp [addWatermark, hd]
  · intro hww
    have : ((wm.width : ℚ)) ≠ 0 := by exact_mod_cast hww
    field_simp
    ring

/-- C6 witness: stamping the 800×600 base with a 200×100 watermark
places a 160×80 watermark at (630, 510) at 80% opacity. -/
theorem watermark_geometry_witness :
    addWatermark exDecode (some ⟨200, 100⟩) "base.png" =
      .ok ⟨800, 600,
        [⟨"base.png", 0, 0, 800, 600, 1⟩,
         ⟨watermarkUrl, 630, 510, 160, 80, 8 / 10⟩]⟩ := by
  have h := (watermark_geometry exDecode "base.png" ⟨800, 600⟩ ⟨200, 100⟩
    (by simp [exDecode])).1
  rw [h]
  norm_num

/-- C7: if the watermark asset fails to load the stamper still succeeds
and its output is pixel-identical to the unmodified source (the canvas
holds exactly one full-size draw of the source at the origin, at the
source's native dimensions); if the source itself fails to decode the
stamper fails with a decode error. -/
theorem watermark_failure_policy (decode : DecodeOracle) (src : String) :
    (∀ img : Raster, decode src = some img →
      addWatermark decode none src =
        .ok ⟨img.width, img.height,
          [⟨src, 0, 0, (img.width : ℚ), (img.height : ℚ), 1⟩]⟩) ∧
    (decode src = none →
      ∀ wmLoad : Option Raster,
        addWatermark decode wmLoad src = .error "Could not load image") := by
  constructor
  · intro img hd
    simp [addWatermark, hd]
  · intro hd wmLoad
    simp [addWatermark, hd]

/-- C7 witness: with the watermark unavailable, stamping the 800×600
base yields exactly the source drawn full-size at the origin; and a
source that does not decode yields the decode error. -/
theorem watermark_failure_policy_witness :
    addWatermark exDecode none "base.png" =
      .ok ⟨800, 600, [⟨"base.png", 0, 0, 800, 600, 1⟩]⟩ ∧
    addWatermark exDecode none "missing.png" = .error "Could not load image" := by
  constructor
  · have h := (watermark_failure_policy exDecode "base.png").1 ⟨800, 600⟩
      (by simp [exDecode])
    exact h
  · exact (watermark_failure_policy exDecode "missing.png").2
      (by simp [exDecode]) none

/-- The JavaScript string short-circuit with an empty default is the
identity. -/
theorem jsOrS_empty_right (s : String) : jsOrS s "" = s := by
  unfold jsOrS
  split_ifs with h
  · exact h.symm
  · rfl

/-- The row loop equals a filterMap over the lines paired with their
loop indices. -/
theorem parseSheetRows_eq (i : ℕ) (ls : List String) :
    parseSheetRows i ls =
      (ls.enumFrom i).filterMap (fun p => parseLine p.1 p.2) := by
  induction ls generalizing i with
  | nil => rfl
  | cons l ls ih =>
    simp only [List.enumFrom, List.filterMap_cons, parseSheetRows]
    cases parseLine i l with
    | none => simp [ih]
    | some d => simp [ih]

/-- C8: the catalog parser skips the first (header) row and processes
each following source line at its 1-based index `i` among the
post-header lines; a row whose normalized comma-split has fewer than 6
fields is excluded; an accepted row maps its fields with the name
defaulting to `"Image " ++ toString i` when blank, the thumbnail
falling back to the full-size URL when blank, and width/height
defaulting to 300 when `parseInt` yields no number (or 0, which is
falsy). -/
theorem catalog_parse (csv : String) (i : ℕ) (raw : String) :
    parseSheet csv =
      (((jsSplitOn '\n' csv).drop 1).enumFrom 1).filterMap
        (fun p => parseLine p.1 p.2)
    ∧ ((rowFields raw).length < 6 → parseLine i raw = none)
    ∧ (jsTrim raw ≠ "" → 6 ≤ (rowFields raw).length →
        parseLine i raw = some
          { name :=
              if (rowFields raw).getD 1 "" = "" then "Image " ++ toString i
              else (rowFields raw).getD 1 ""
            imageUrl := (rowFields raw).getD 2 ""
            thumbnailImageUrl :=
              if (rowFields raw).getD 3 "" = "" then (rowFields raw).getD 2 ""
              else (rowFields raw).getD 3 ""
            fullSizeWidth :=
              match parseIntJS ((rowFields raw).getD 4 "") with
              | none => 300
              | some n => if n = 0 then 300 else n
            fullSizeHeight :=
              match parseIntJS ((rowFields raw).getD 5 "") with
              | none => 300
              | some n => if n = 0 then 300 else n }) := by
  refine ⟨parseSheetRows_eq 1 _, ?_, ?_⟩
  · intro hlen
    have hnle : ¬ 6 ≤ (rowFields raw).length := by omega
    by_cases htrim : jsTrim raw = ""
    · simp [parseLine, htrim]
    · simp [parseLine, htrim, hnle]
  · intro htrim hlen
    simp only [parseLine, if_neg htrim, if_pos hlen, Option.some.injEq,
      ImageData.mk.injEq]
    refine ⟨rfl, jsOrS_empty_right _, ?_, rfl, rfl⟩
    show jsOrS _ _ = _
    rw [jsOrS_empty_right]
    rfl

/-- The decimal digit character of a digit value reads back to that
value. -/
theorem digitChar_toNat_sub (d : ℕ) (h : d < 10) :
    (Nat.digitChar d).toNat - 48 = d := by
  interval_cases d <;> rfl

/-- Horner evaluation of a little-endian digit list agrees with
`Nat.ofDigits`. -/
theorem foldr_horner (ds : List ℕ) :
    ds.foldr (fun d a => a * 10 + d) 0 = Nat.ofDigits 10 ds := by
  induction ds with
  | nil => simp [Nat.ofDigits_nil]
  | cons d ds ih =>
    simp only [List.foldr_cons, Nat.ofDigits_cons, ih]
    ring

/-- Reading back the decimal string of `n` recovers `n`. -/
theorem readNatDecimal_jsNumToString (n : ℕ) :
    readNatDecimal (jsNumToString n) = n := by
  by_cases h0 : n = 0
  · subst h0; rfl
  · simp only [jsNumToString, if_neg h0, readNatDecimal]
    show (((Nat.digits 10 n).reverse.map Nat.digitChar).foldl
      (fun a c => a * 10 + (c.toNat - 48)) 0) = n
    rw [List.foldl_map]
    rw [List.foldl_ext (fun a d => a * 10 + ((Nat.digitChar d).toNat - 48))
      (fun a d => a * 10 + d) 0
      (fun a d hd => by
        show a * 10 + ((Nat.digitChar d).toNat - 48) = a * 10 + d
        rw [digitChar_toNat_sub d
          (Nat.digits_lt_base (by norm_num) (List.mem_reverse.mp hd))])]
    rw [List.foldl_reverse]
    rw [foldr_horner]
    exact Nat.ofDigits_digits 10 n

/-- The decimal-string model of `Number.prototype.toString()` is
injective on timestamps. -/
theorem jsNumToString_injective : Function.Injective jsNumToString :=
  Function.LeftInverse.injective readNatDecimal_jsNumToString

/-- Running a list of drops appends one overlay per drop, in order. -/
theorem runDrops_overlayImages (st : AppState)
    (ds : List (ℕ × ImageData × ℚ × ℚ × ℚ × ℚ)) :
    (runDrops st ds).overlayImages =
      st.overlayImages ++ ds.map
        (fun d => newOverlayOf d.1 d.2.1 d.2.2.1 d.2.2.2.1 d.2.2.2.2.1
          d.2.2.2.2.2) := by
  induction ds generalizing st with
  | nil => simp [runDrops]
  | cons d ds ih =>
    obtain ⟨now, rec, cx, cy, rl, rt⟩ := d
    simp [runDrops, handleDrop, ih]

/-- C9 counterexample: two drops performed at the same clock
millisecond (`Date.now() = 5`) produce two overlays with the same id,
so overlay ids are not unique for every sequence of drop operations. -/
theorem overlay_ids_not_unique :
    ¬ (((runDrops (⟨[], some "base.png", [], none⟩ : AppState)
          [(5, exRecord, 60, 60, 0, 0), (5, exRecord, 200, 100, 0, 0)]
        ).overlayImages.map OverlayImage.id).Nodup) := by
  rw [runDrops_overlayImages]
  simp [newOverlayOf]

/-- C9 (amended): overlay ids are unique for every sequence of drop
operations whose generation timestamps are pairwise distinct — starting
from a composition with no overlays, the ids of the created overlays
are pairwise distinct. -/
theorem overlay_ids_unique_of_distinct_timestamps (st : AppState)
    (ds : List (ℕ × ImageData × ℚ × ℚ × ℚ × ℚ))
    (h0 : st.overlayImages = [])
    (ht : (ds.map (fun d => d.1)).Nodup) :
    ((runDrops st ds).overlayImages.map OverlayImage.id).Nodup := by
  rw [runDrops_overlayImages, h0, List.nil_append, List.map_map]
  have hfe : (OverlayImage.id ∘ fun d : ℕ × ImageData × ℚ × ℚ × ℚ × ℚ =>
      newOverlayOf d.1 d.2.1 d.2.2.1 d.2.2.2.1 d.2.2.2.2.1 d.2.2.2.2.2)
      = (jsNumToString ∘ fun d : ℕ × ImageData × ℚ × ℚ × ℚ × ℚ => d.1) :=
    rfl
  rw [hfe, ← List.map_map]
  exact ht.map jsNumToString_injective

/-- C9 witness: two drops at distinct timestamps 5 and 6 yield overlays
with distinct ids. -/
theorem overlay_ids_unique_of_distinct_timestamps_witness :
    (((runDrops (⟨[], some "base.png", [], none⟩ : AppState)
        [(5, exRecord, 60, 60, 0, 0), (6, exRecord, 200, 100, 0, 0)]
      ).overlayImages.map OverlayImage.id).Nodup) :=
  overlay_ids_unique_of_distinct_timestamps _ _ rfl (by decide)

/-- C8 witness: an accepted row at post-header line 3 with a blank name
gets the name "Image 3", the thumbnail falls back to the full-size URL,
and the unparseable width defaults to 300; a row with fewer than 6
fields is rejected. -/
theorem catalog_parse_witness :
    parseLine 3 ",,full.png,,abc,40" =
      some ⟨"Image 3", "full.png", "full.png", 300, 40⟩ ∧
    parseLine 2 "a,b,c" = none := by
  constructor
  · have h := (catalog_parse "" 3 ",,full.png,,abc,40").2.2
      (by decide) (by decide)
    rw [h]
    decide
  · exact (catalog_parse "" 2 "a,b,c").2.1 (by decide)

/-- C10: if watermark stamping fails during base-image upload, the
upload emits no toast, sets the base image to the original
un-watermarked upload, and still clears all overlays. -/
theorem upload_watermark_fallback (decode : DecodeOracle)
    (wmLoad : Option Raster) (original : String) (st : AppState)
    (e : String) (he : addWatermark decode wmLoad original = .error e) :
    handleImageUpload decode wmLoad original st =
      ({ st with baseImage := some original, overlayImages := [] }, []) := by
  simp [handleImageUpload, he]

/-- C10 witness: when the uploaded file's data-URL fails to decode
inside the stamper, the upload replaces the base with the original
upload, clears the overlays, and emits no toast. -/
theorem upload_watermark_fallback_witness :
    handleImageUpload noDecode none "orig.png"
        (⟨[], some "old.png", [exOverlay], some "1"⟩ : AppState)
      = ((⟨[], some "orig.png", [], some "1"⟩ : AppState), []) :=
  upload_watermark_fallback noDecode none "orig.png"
    (⟨[], some "old.png", [exOverlay], some "1"⟩ : AppState)
    "Could not load image" rfl

end CoralScape
